import Mathlib

/-
Verification development for the DKB transaction exporter (dkb.py).

The embedding translates, from the source:
  * the record/playback interception layer (`RecordingBrowser`):
    `_intercept_call`, `back`, `_do_record`, `_read_recording`;
  * scraper construction (`DkbScraper.__init__`);
  * the post-PIN authentication state machine (`confirm_login`), including
    the manual-TAN branch, the app-push polling loop and `ask_for_tan`;
  * account classification (`list_accounts`);
  * the per-account export loop of the `__main__` block.

Marker scanning in the source is `re.search(pattern, html)` where every
pattern used is a literal string without regex metacharacters; it is
embedded as literal substring search over the character list of the body.
-/

/-- Does the character list start with the given needle? Helper for the
literal-substring embedding of `re.search`. -/
def leadsWith : List Char → List Char → Bool
  | _, [] => true
  | [], _ :: _ => false
  | a :: as, b :: bs => a == b && leadsWith as bs

/-- Does `needle` occur contiguously anywhere in the second list? -/
def occursIn (needle : List Char) : List Char → Bool
  | [] => needle.isEmpty
  | c :: rest => leadsWith (c :: rest) needle || occursIn needle rest

/-- Embedding of Python `re.search(pattern, html)` for the literal
(metacharacter-free) patterns used in dkb.py, as a Boolean. -/
def reSearch (pattern html : String) : Bool :=
  occursIn pattern.toList html.toList

/-- Embedding of Python `s.endswith(suffix)`. -/
def pyEndsWith (s suf : String) : Bool :=
  leadsWith s.toList.reverse suf.toList.reverse

/-- Embedding of Python `s.strip()`: drop whitespace at both ends. -/
def pyStrip (s : String) : String :=
  String.mk (((s.toList.dropWhile Char.isWhitespace).reverse.dropWhile
    Char.isWhitespace).reverse)

/-- dkb.py line 163: marker meaning the PIN was wrong. -/
def wrongCredMarker : String := "Anmeldung zum Internet-Banking"

/-- dkb.py line 166: marker meaning a manual TAN is required. -/
def manualTanMarker : String :=
  "Bestätigen Sie Ihre Anmeldung im Banking zusätzlich mit einer"

/-- dkb.py line 196: marker meaning app-push confirmation is required. -/
def appConfirmMarker : String := "und bestätigen dort"

/-- dkb.py line 220: polling response marker meaning keep waiting. -/
def waitingMarker : String := "WAITING"

/-- dkb.py line 223: polling response marker meaning confirmation done. -/
def completeMarker : String := "MAP_TO_EXIT"

/-- The four branches of `confirm_login`'s scan of the post-login body
(dkb.py lines 163, 166, 196, fall-through). -/
inductive LoginBranch where
  | invalidCredentials
  | manualTanPending
  | appPushPending
  | authenticated
deriving DecidableEq

/-- The `if` / `elif` chain of `confirm_login` (dkb.py lines 163-196):
wrong-credentials first, then manual TAN, then app confirmation, else
authenticated. -/
def classifyLogin (html : String) : LoginBranch :=
  if reSearch wrongCredMarker html then LoginBranch.invalidCredentials
  else if reSearch manualTanMarker html then LoginBranch.manualTanPending
  else if reSearch appConfirmMarker html then LoginBranch.appPushPending
  else LoginBranch.authenticated

example : classifyLogin wrongCredMarker = LoginBranch.invalidCredentials := by decide
example : classifyLogin manualTanMarker = LoginBranch.manualTanPending := by decide
example : classifyLogin appConfirmMarker = LoginBranch.appPushPending := by decide
example : classifyLogin "<html></html>" = LoginBranch.authenticated := by decide

/-- Outcome of the app-push polling `while` loop (dkb.py lines 214-228),
carrying the number of polling requests issued. `timedOut` is the loop
falling through with `timeout <= 0` (line 230 then raises); `complete`
is the `break` on the MAP_TO_EXIT marker. -/
inductive PollOutcome where
  | timedOut (polls : Nat)
  | complete (polls : Nat)
deriving DecidableEq

/-- The polling `while` loop of `confirm_login` (dkb.py lines 211-228):
`timeout = 100`, `interval = 2`; each iteration opens the polling URL
(the response stream `resps`, indexed by polls issued so far), checks the
WAITING marker first (continue), then MAP_TO_EXIT (break), otherwise
continues; after each non-breaking iteration `timeout -= 2`. -/
def polling_loop (resps : Nat → String) (timeout : Int) (polls : Nat) :
    PollOutcome :=
  if h : timeout > 0 then
    let html := resps polls
    if reSearch waitingMarker html then
      polling_loop resps (timeout - 2) (polls + 1)
    else if reSearch completeMarker html then
      PollOutcome.complete (polls + 1)
    else
      polling_loop resps (timeout - 2) (polls + 1)
  else
    PollOutcome.timedOut polls
termination_by timeout.toNat
decreasing_by
  all_goals omega

/-- The body of the single final confirmation request after a successful
poll (dkb.py line 236): `$event=next&XSRFPreventionToken={token}`. -/
def confirmData (token : String) : String :=
  "$event=next&XSRFPreventionToken=" ++ token

/-- Result of the whole app-push confirmation (dkb.py lines 211-236):
either the timeout error of line 231 or success after `polls` polling
requests followed by one final confirmation request with `confirmData`. -/
inductive AppPushResult where
  | timeoutErr
  | confirmed (polls : Nat) (finalRequestData : String)
deriving DecidableEq

/-- dkb.py lines 211-236: run the polling loop with budget 100 and, on
success, issue the single final confirmation request carrying the token. -/
def appPushConfirm (token : String) (resps : Nat → String) : AppPushResult :=
  match polling_loop resps 100 0 with
  | PollOutcome.timedOut _ => AppPushResult.timeoutErr
  | PollOutcome.complete n => AppPushResult.confirmed n (confirmData token)

/-- Error taxonomy of `confirm_login` (each constructor corresponds to one
`raise RuntimeError` in dkb.py; `attributeError` is the unhandled crash of
line 197 when the device pattern does not match). -/
inductive AuthError where
  | invalidCredentials
  | interactionRequired
  | formNotFound
  | invalidSecondFactor
  | secondFactorTimeout
  | attributeError
deriving DecidableEq

/-- Observable side effects of `confirm_login`, in order. -/
inductive Ev where
  | searchTanForm
  | submitForm
  | promptTan
  | searchAppForm
  | pollRequest
  | finalConfirm (data : String)
  | openHome
deriving DecidableEq

/-- Environment for `confirm_login`: the post-login body, the interactive
flag, and oracles for what the browser pages contain at each step
(`tanFormPresent0`: TAN form on the initial page; `tanFormPresent1`: on the
page after the blind empty submit; `tanFormPresent2`: after submitting the
TAN; `pollResponses`: bodies returned by the polling endpoint). -/
structure ConfirmEnv where
  html : String
  interactive : Bool
  tanFormPresent0 : Bool
  tanFormPresent1 : Bool
  tanValue : String
  tanFormPresent2 : Bool
  devicePresent : Bool
  appFormPresent : Bool
  appToken : String
  pollResponses : Nat → String

/-- The manual-TAN branch of `confirm_login` (dkb.py lines 166-194):
non-interactive raises immediately (line 168, before any form search or
prompt); otherwise search the TAN form, blind-submit once if absent,
search again, raise FormNotFound if still absent, prompt for the TAN,
submit it, and raise InvalidSecondFactor if the TAN form is still there. -/
def tanBranch (env : ConfirmEnv) : Except AuthError Unit × List Ev :=
  if env.interactive = false then
    (Except.error AuthError.interactionRequired, [])
  else
    let evs0 := if env.tanFormPresent0 then [Ev.searchTanForm]
                else [Ev.searchTanForm, Ev.submitForm]
    let present := if env.tanFormPresent0 then true else env.tanFormPresent1
    let evs1 := evs0 ++ [Ev.searchTanForm]
    if present = false then
      (Except.error AuthError.formNotFound, evs1)
    else
      let evs2 := evs1 ++ [Ev.promptTan, Ev.submitForm, Ev.searchTanForm]
      if env.tanFormPresent2 then
        (Except.error AuthError.invalidSecondFactor, evs2)
      else
        (Except.ok (), evs2 ++ [Ev.openHome])

/-- The app-push branch of `confirm_login` (dkb.py lines 196-236): extract
the device name (crash if the pattern is absent), search the
XSRFPreventionToken form, raise FormNotFound if absent, run the polling
loop, raise SecondFactorTimeout on timeout, else issue the final
confirmation request and proceed to the home navigation. -/
def appBranch (env : ConfirmEnv) : Except AuthError Unit × List Ev :=
  if env.devicePresent = false then
    (Except.error AuthError.attributeError, [])
  else if env.appFormPresent = false then
    (Except.error AuthError.formNotFound, [Ev.searchAppForm])
  else
    match polling_loop env.pollResponses 100 0 with
    | PollOutcome.timedOut n =>
        (Except.error AuthError.secondFactorTimeout,
          Ev.searchAppForm :: List.replicate n Ev.pollRequest)
    | PollOutcome.complete n =>
        (Except.ok (),
          Ev.searchAppForm :: List.replicate n Ev.pollRequest
            ++ [Ev.finalConfirm (confirmData env.appToken), Ev.openHome])

/-- dkb.py lines 159-238: `confirm_login`. Scans the post-login body with
the `classifyLogin` chain and runs the selected branch; every non-raising
path ends with the home navigation of line 238 (`Ev.openHome`). -/
def confirm_login (env : ConfirmEnv) : Except AuthError Unit × List Ev :=
  match classifyLogin env.html with
  | LoginBranch.invalidCredentials => (Except.error AuthError.invalidCredentials, [])
  | LoginBranch.manualTanPending => tanBranch env
  | LoginBranch.appPushPending => appBranch env
  | LoginBranch.authenticated => (Except.ok (), [Ev.openHome])

/-- dkb.py lines 240-248: `ask_for_tan`. On a TTY, loop reading lines until
one has non-blank content and return that raw line (`none` when the line
stream never yields one, i.e. the loop never terminates); otherwise return
the whole stripped input stream. -/
def ask_for_tan (isatty : Bool) (ttyLines : List String) (stdinData : String) :
    Option String :=
  if isatty then
    ttyLines.find? (fun l => !(pyStrip l).isEmpty)
  else
    some (pyStrip stdinData)

example : ask_for_tan false [] "  " = some "" := by decide
example : ask_for_tan true ["", " ", " 1234 "] "" = some " 1234 " := by decide

/-- dkb.py lines 407-431: the classification loop of `list_accounts` over
the dropdown option labels, in document order. Labels ending in
"Kreditkarte" go to the first list, otherwise labels ending in "Girokonto"
go to the second, and anything else is collected as a printed warning
(third list) instead of raising. -/
def list_accounts : List String → List String × List String × List String
  | [] => ([], [], [])
  | l :: rest =>
      let r := list_accounts rest
      if pyEndsWith l "Kreditkarte" then (l :: r.1, r.2.1, r.2.2)
      else if pyEndsWith l "Girokonto" then (r.1, l :: r.2.1, r.2.2)
      else (r.1, r.2.1, l :: r.2.2)

example : list_accounts ["VISA Kreditkarte", "Giro Girokonto", "Unknown Foo"]
    = (["VISA Kreditkarte"], ["Giro Girokonto"], ["Unknown Foo"]) := by decide

/-- The response data recorded by `_do_record` / replayed by
`_read_recording` (dkb.py lines 75-89): body, status code, status message,
headers, url. -/
structure RespRecord where
  data : String
  code : Nat
  msg : String
  headers : List (String × String)
  url : String
deriving DecidableEq

/-- State of a `RecordingBrowser` (dkb.py lines 32-36): the two mode flags,
the intercept counter, the fixture directory contents (sequence number to
record, as read by `_read_recording`), and the fixture files written so
far by `_do_record` (in write order). -/
structure BrowserState where
  recordingEnabled : Bool
  playbackEnabled : Bool
  interceptCount : Nat
  fixtures : Nat → Option RespRecord
  written : List (Nat × RespRecord)

/-- dkb.py lines 91-103: `_read_recording` loads the fixture named by the
current intercept count; a missing file (or empty pickled data) yields no
response (`none`). -/
def read_recording (st : BrowserState) : Option RespRecord :=
  st.fixtures st.interceptCount

/-- dkb.py lines 70-89: `_do_record`. If the browser has no current
response it returns early — before the counter increment of line 85 — so
neither the counter nor the fixture directory changes. Otherwise the
counter is incremented and the record is written under the new counter. -/
def do_record (st : BrowserState) (resp : Option RespRecord) : BrowserState :=
  match resp with
  | none => st
  | some r =>
      { st with interceptCount := st.interceptCount + 1,
                written := st.written ++ [(st.interceptCount + 1, r)] }

/-- Result of one intercepted transport operation: the new browser state,
how many times the underlying mechanize browser was invoked (0 in
playback), and the value returned to the caller. -/
structure OpOutcome where
  st : BrowserState
  netOps : Nat
  result : Option RespRecord

/-- dkb.py lines 59-68: `_intercept_call` (used by `open`). In playback,
increment the counter and replay the fixture for the new counter value,
touching no network. Otherwise delegate to the real browser (whose
resulting response is the oracle `net`), recording afterwards when
recording is enabled. -/
def intercept_call (st : BrowserState) (net : Option RespRecord) : OpOutcome :=
  if st.playbackEnabled then
    let st1 := { st with interceptCount := st.interceptCount + 1 }
    { st := st1, netOps := 0, result := read_recording st1 }
  else
    let st1 := if st.recordingEnabled then do_record st net else st
    { st := st1, netOps := 1, result := net }

/-- dkb.py lines 49-57: `back`. Same playback short-circuit as
`_intercept_call`; in the non-playback path the Python method returns
`None` after delegating (and recording when enabled). -/
def back (st : BrowserState) (net : Option RespRecord) : OpOutcome :=
  if st.playbackEnabled then
    let st1 := { st with interceptCount := st.interceptCount + 1 }
    { st := st1, netOps := 0, result := read_recording st1 }
  else
    let st1 := if st.recordingEnabled then do_record st net else st
    { st := st1, netOps := 1, result := none }

/-- A fresh `RecordingBrowser` (dkb.py lines 32-36): both modes off,
counter 0, nothing written; `dir` is the dump directory contents. -/
def initialBrowser (dir : Nat → Option RespRecord) : BrowserState :=
  { recordingEnabled := false, playbackEnabled := false, interceptCount := 0,
    fixtures := dir, written := [] }

/-- dkb.py lines 38-40: `enable_recording` sets the flag (the path is the
dump directory already carried by `fixtures`). -/
def enable_recording (st : BrowserState) : BrowserState :=
  { st with recordingEnabled := true }

/-- dkb.py lines 42-44: `enable_playback` sets the flag. -/
def enable_playback (st : BrowserState) : BrowserState :=
  { st with playbackEnabled := true }

/-- State of a `DkbScraper`: its browser and the interactive flag. -/
structure ScraperState where
  br : BrowserState
  interactive : Bool

/-- dkb.py lines 111-122: `DkbScraper.__init__`. Builds a fresh browser,
enables recording when `record_html`, enables playback when
`playback_html` (both independent `if`s — nothing rejects the
combination), and stores the interactive flag. Total: no error path. -/
def DkbScraperInit (record_html playback_html interactive : Bool)
    (dumpDir : Nat → Option RespRecord) : ScraperState :=
  let br0 := initialBrowser dumpDir
  let br1 := if record_html then enable_recording br0 else br0
  let br2 := if playback_html then enable_playback br1 else br1
  { br := br2, interactive := interactive }

/-- Events of the `__main__` export loop (dkb.py lines 578-605). -/
inductive RunEv where
  | goBack
  | exportAccount (label : String)
deriving DecidableEq

/-- One of the two `for` loops of the `__main__` block (dkb.py lines
581-603): before each account except when `first` is still set, issue a
"go back"; returns the event list and the final value of `first`. -/
def loopAccounts : Bool → List String → List RunEv × Bool
  | first, [] => ([], first)
  | first, a :: rest =>
      let pre : List RunEv := if first then [] else [RunEv.goBack]
      let next := loopAccounts false rest
      (pre ++ RunEv.exportAccount a :: next.1, next.2)

/-- The whole export sequence of `__main__` (dkb.py lines 579-603): the
credit-card loop runs first with `first = True`, the giro loop continues
with the flag value left by the first loop. -/
def export_run (c_accs d_accs : List String) : List RunEv :=
  let r1 := loopAccounts true c_accs
  let r2 := loopAccounts r1.2 d_accs
  r1.1 ++ r2.1

/-- Number of "go back" navigations in a run trace. -/
def countGoBacks : List RunEv → Nat
  | [] => 0
  | RunEv.goBack :: rest => countGoBacks rest + 1
  | RunEv.exportAccount _ :: rest => countGoBacks rest

/-- Specification-side trace for claim C9 (from the spec's words): the
first account is exported with no preceding "go back", and every later
account is preceded by exactly one "go back". -/
def specGoBackTail : List String → List RunEv
  | [] => []
  | b :: rest => RunEv.goBack :: RunEv.exportAccount b :: specGoBackTail rest

/-- Specification-side trace for claim C9, head case. -/
def specGoBackTrace : List String → List RunEv
  | [] => []
  | a :: rest => RunEv.exportAccount a :: specGoBackTail rest

example : export_run ["A", "B"] ["X"]
    = [RunEv.exportAccount "A", RunEv.goBack, RunEv.exportAccount "B",
       RunEv.goBack, RunEv.exportAccount "X"] := by decide

/-- A concrete recorded response used in the theorems below. -/
def sampleRecord : RespRecord :=
  { data := "<html></html>", code := 200, msg := "OK",
    headers := [("Content-Type", "text/html")], url := "https://www.dkb.de/" }

/-- A recording-mode browser state (playback off) with nothing written. -/
def recOnlyState : BrowserState :=
  { recordingEnabled := true, playbackEnabled := false, interceptCount := 0,
    fixtures := fun _ => none, written := [] }

/-- C1 counterexample: in recording mode, an operation whose response is
empty (`none`) leaves the sequence counter unchanged (0, not 1) and writes
nothing — contradicting the claim that the counter is still incremented. -/
theorem C1_counterexample :
    (intercept_call recOnlyState none).st.interceptCount = 0 ∧
    (intercept_call recOnlyState none).st.written = [] ∧
    ¬ (intercept_call recOnlyState none).st.interceptCount
        = recOnlyState.interceptCount + 1 := by
  decide

/-- C1 (amended): in recording mode, an intercepted operation whose
response cannot be obtained skips persisting a fixture AND leaves the
sequence counter unchanged (`_do_record` returns before the increment of
line 85), while the underlying browser is still invoked once. -/
theorem C1_empty_response_skips_counter (st : BrowserState)
    (hrec : st.recordingEnabled = true) (hpb : st.playbackEnabled = false) :
    (intercept_call st none).st.interceptCount = st.interceptCount ∧
    (intercept_call st none).st.written = st.written ∧
    (back st none).st.interceptCount = st.interceptCount ∧
    (back st none).st.written = st.written ∧
    (intercept_call st none).netOps = 1 := by
  simp [intercept_call, back, do_record, hrec, hpb]

/-- C1 witness: the amended statement at a concrete recording state. -/
theorem C1_witness :
    (intercept_call recOnlyState none).st.interceptCount
        = recOnlyState.interceptCount ∧
    (intercept_call recOnlyState none).st.written = recOnlyState.written ∧
    (back recOnlyState none).st.interceptCount = recOnlyState.interceptCount ∧
    (back recOnlyState none).st.written = recOnlyState.written ∧
    (intercept_call recOnlyState none).netOps = 1 :=
  C1_empty_response_skips_counter recOnlyState rfl rfl

/-- A playback-mode browser state holding exactly one fixture (number 1)
and whose counter already stands at 1 (one operation replayed). -/
def pbState : BrowserState :=
  { recordingEnabled := false, playbackEnabled := true, interceptCount := 1,
    fixtures := fun k => if k = 1 then some sampleRecord else none,
    written := [] }

/-- C2: in playback mode every intercepted operation (`open` via
`_intercept_call`, and `back`) increments the sequence counter, invokes
the real browser zero times, and returns the fixture stored under the new
counter value; when the fixture is absent the operation returns `none`
(the empty/no-op response) instead of raising — in particular a probe with
sequence number N+1 after a recording of N fixtures yields `none`. -/
theorem C2_playback_semantics (st : BrowserState) (net : Option RespRecord)
    (N : Nat) (hpb : st.playbackEnabled = true) :
    (intercept_call st net).st.interceptCount = st.interceptCount + 1 ∧
    (intercept_call st net).netOps = 0 ∧
    (intercept_call st net).result = st.fixtures (st.interceptCount + 1) ∧
    (back st net).st.interceptCount = st.interceptCount + 1 ∧
    (back st net).netOps = 0 ∧
    (back st net).result = st.fixtures (st.interceptCount + 1) ∧
    (st.interceptCount = N → (∀ k, N < k → st.fixtures k = none) →
      (intercept_call st net).result = none) := by
  refine ⟨?_, ?_, ?_, ?_, ?_, ?_, ?_⟩ <;>
    simp [intercept_call, back, read_recording, hpb]
  intro hN hnone
  subst hN
  exact hnone _ (Nat.lt_succ_self _)

/-- C2 witness: with one recorded fixture and the counter at 1, the next
playback probe (sequence number 2) returns the empty/no-op response. -/
theorem C2_witness : (intercept_call pbState none).result = none := by
  refine (C2_playback_semantics pbState none 1 rfl).2.2.2.2.2.2 rfl ?_
  intro k hk
  have hk' : k ≠ 1 := by omega
  simp [pbState, hk']

/-- C3 counterexample: constructing the scraper with both `record_html`
and `playback_html` set completes normally — both modes end up enabled on
the browser and no configuration error of any kind is raised (the
embedded `DkbScraperInit`, like `DkbScraper.__init__`, is total). -/
theorem C3_counterexample :
    (DkbScraperInit true true true (fun _ => none)).br.recordingEnabled = true ∧
    (DkbScraperInit true true true (fun _ => none)).br.playbackEnabled = true ∧
    (DkbScraperInit true true true (fun _ => none)).interactive = true := by
  decide

/-- C3 (amended): requesting both modes is not rejected; `__init__` simply
enables each requested flag independently and completes with a fresh
browser (counter 0, nothing written). No ConfigurationError exists. -/
theorem C3_no_mode_rejection (r p i : Bool) (dir : Nat → Option RespRecord) :
    (DkbScraperInit r p i dir).br.recordingEnabled = r ∧
    (DkbScraperInit r p i dir).br.playbackEnabled = p ∧
    (DkbScraperInit r p i dir).interactive = i ∧
    (DkbScraperInit r p i dir).br.interceptCount = 0 ∧
    (DkbScraperInit r p i dir).br.written = [] := by
  cases r <;> cases p <;>
    simp [DkbScraperInit, initialBrowser, enable_recording, enable_playback]

/-- A browser state with BOTH recording and playback enabled. -/
def bothState : BrowserState :=
  { recordingEnabled := true, playbackEnabled := true, interceptCount := 0,
    fixtures := fun _ => none, written := [] }

/-- C10: when both recording and playback are enabled, playback takes
precedence for every intercepted operation (`open` and `back`): the
counter is incremented, the fixture for the new counter value is read, the
real browser is never invoked, and no fixture file is written. -/
theorem C10_playback_precedence (st : BrowserState) (net : Option RespRecord)
    (_hrec : st.recordingEnabled = true) (hpb : st.playbackEnabled = true) :
    (intercept_call st net).st.interceptCount = st.interceptCount + 1 ∧
    (intercept_call st net).netOps = 0 ∧
    (intercept_call st net).result = st.fixtures (st.interceptCount + 1) ∧
    (intercept_call st net).st.written = st.written ∧
    (back st net).st.interceptCount = st.interceptCount + 1 ∧
    (back st net).netOps = 0 ∧
    (back st net).result = st.fixtures (st.interceptCount + 1) ∧
    (back st net).st.written = st.written := by
  simp [intercept_call, back, read_recording, hpb]

/-- C10 witness: the precedence statement at a concrete both-modes state
with a live network response available. -/
theorem C10_witness :
    (intercept_call bothState (some sampleRecord)).netOps = 0 ∧
    (intercept_call bothState (some sampleRecord)).st.written
        = bothState.written ∧
    (back bothState (some sampleRecord)).st.interceptCount
        = bothState.interceptCount + 1 :=
  ⟨(C10_playback_precedence bothState (some sampleRecord) rfl rfl).2.1,
   (C10_playback_precedence bothState (some sampleRecord) rfl rfl).2.2.2.1,
   (C10_playback_precedence bothState (some sampleRecord) rfl rfl).2.2.2.2.1⟩

/-- C4: the post-login body is scanned for the three markers in priority
order (wrong credentials, manual TAN, app confirmation) and exactly one
branch of `classifyLogin` is taken: a body containing only the first
marker classifies as invalid credentials, only the second as the manual
TAN flow, only the third as the app-push flow, and none of them as
directly authenticated. (`classifyLogin` is a function, so never more
than one branch results for a single body.) -/
theorem C4_login_branching (html : String) :
    (reSearch wrongCredMarker html = true →
     reSearch manualTanMarker html = false →
     reSearch appConfirmMarker html = false →
      classifyLogin html = LoginBranch.invalidCredentials) ∧
    (reSearch wrongCredMarker html = false →
     reSearch manualTanMarker html = true →
     reSearch appConfirmMarker html = false →
      classifyLogin html = LoginBranch.manualTanPending) ∧
    (reSearch wrongCredMarker html = false →
     reSearch manualTanMarker html = false →
     reSearch appConfirmMarker html = true →
      classifyLogin html = LoginBranch.appPushPending) ∧
    (reSearch wrongCredMarker html = false →
     reSearch manualTanMarker html = false →
     reSearch appConfirmMarker html = false →
      classifyLogin html = LoginBranch.authenticated) := by
  refine ⟨?_, ?_, ?_, ?_⟩ <;> intro h1 h2 h3 <;> simp [classifyLogin, h1, h2, h3]

/-- C4 witness: three canned bodies containing exactly one marker each
(the marker string itself), and one containing none. -/
theorem C4_witness :
    classifyLogin wrongCredMarker = LoginBranch.invalidCredentials ∧
    classifyLogin manualTanMarker = LoginBranch.manualTanPending ∧
    classifyLogin appConfirmMarker = LoginBranch.appPushPending ∧
    classifyLogin "<html></html>" = LoginBranch.authenticated :=
  ⟨(C4_login_branching wrongCredMarker).1 (by decide) (by decide) (by decide),
   (C4_login_branching manualTanMarker).2.1 (by decide) (by decide) (by decide),
   (C4_login_branching appConfirmMarker).2.2.1 (by decide) (by decide) (by decide),
   (C4_login_branching "<html></html>").2.2.2 (by decide) (by decide) (by decide)⟩

/-- One unfolding step of the polling loop when the budget is positive and
the response carries the WAITING marker: poll once more with the budget
reduced by the interval. -/
theorem polling_loop_step_waiting (resps : Nat → String) (t : Int)
    (polls : Nat) (ht : t > 0)
    (hw : reSearch waitingMarker (resps polls) = true) :
    polling_loop resps t polls = polling_loop resps (t - 2) (polls + 1) := by
  rw [polling_loop]
  simp [ht, hw]

/-- One unfolding step of the polling loop when the budget is positive,
the WAITING marker is absent and the MAP_TO_EXIT marker present: the loop
breaks successfully after this poll. -/
theorem polling_loop_step_complete (resps : Nat → String) (t : Int)
    (polls : Nat) (ht : t > 0)
    (hw : reSearch waitingMarker (resps polls) = false)
    (hc : reSearch completeMarker (resps polls) = true) :
    polling_loop resps t polls = PollOutcome.complete (polls + 1) := by
  rw [polling_loop]
  simp [ht, hw, hc]

/-- With the budget exhausted the loop exits and the timeout is raised. -/
theorem polling_loop_timeout (resps : Nat → String) (t : Int) (polls : Nat)
    (ht : t ≤ 0) :
    polling_loop resps t polls = PollOutcome.timedOut polls := by
  rw [polling_loop]
  simp [show ¬ t > 0 by omega]

/-- A run of `k` consecutive WAITING responses consumes the whole budget
`2 * k` and times out after exactly `k` further polls. -/
theorem polling_loop_waiting_run (k : Nat) :
    ∀ (resps : Nat → String) (polls : Nat),
      (∀ j, j < k → reSearch waitingMarker (resps (polls + j)) = true) →
      polling_loop resps ((2 * k : Nat) : Int) polls
        = PollOutcome.timedOut (polls + k) := by
  induction k with
  | zero =>
      intro resps polls _
      rw [polling_loop_timeout resps _ polls (by norm_num)]
      simp
  | succ n ih =>
      intro resps polls h
      have hw : reSearch waitingMarker (resps polls) = true := by
        simpa using h 0 (Nat.succ_pos n)
      rw [polling_loop_step_waiting resps _ polls (by push_cast; omega) hw]
      have harg : ((2 * (n + 1) : Nat) : Int) - 2 = ((2 * n : Nat) : Int) := by
        push_cast
        ring
      rw [harg]
      have h2 : ∀ j, j < n →
          reSearch waitingMarker (resps (polls + 1 + j)) = true := by
        intro j hj
        have hx := h (j + 1) (by omega)
        have e : polls + (j + 1) = polls + 1 + j := by omega
        rwa [e] at hx
      rw [ih resps (polls + 1) h2]
      congr 1
      omega

/-- C5 (amended): with budget 100 and interval 2 the loop makes at most
50 polls; fed responses containing only the WAITING marker for the full
budget, `appPushConfirm` fails with the timeout error; fed a response that
carries the MAP_TO_EXIT marker and not the WAITING marker (which is
checked first and takes precedence) on the 3rd poll, it exits after
exactly 3 polls and issues the single final confirmation request whose
body carries the extracted token. -/
theorem C5_polling (token : String) (resps : Nat → String) :
    ((∀ j, j < 50 → reSearch waitingMarker (resps j) = true ∧
        reSearch completeMarker (resps j) = false) →
      appPushConfirm token resps = AppPushResult.timeoutErr) ∧
    (reSearch waitingMarker (resps 0) = true →
     reSearch waitingMarker (resps 1) = true →
     reSearch waitingMarker (resps 2) = false →
     reSearch completeMarker (resps 2) = true →
      appPushConfirm token resps
        = AppPushResult.confirmed 3 (confirmData token)) := by
  constructor
  · intro h
    have h' : ∀ j, j < 50 → reSearch waitingMarker (resps (0 + j)) = true := by
      intro j hj
      simpa using (h j hj).1
    have hrun := polling_loop_waiting_run 50 resps 0 h'
    have e : ((2 * 50 : Nat) : Int) = 100 := by norm_num
    rw [e] at hrun
    simp [appPushConfirm, hrun]
  · intro h0 h1 h2w h2c
    have s1 : polling_loop resps 100 0 = polling_loop resps 98 1 := by
      have hs := polling_loop_step_waiting resps 100 0 (by norm_num) h0
      norm_num at hs
      exact hs
    have s2 : polling_loop resps 98 1 = polling_loop resps 96 2 := by
      have hs := polling_loop_step_waiting resps 98 1 (by norm_num) h1
      norm_num at hs
      exact hs
    have s3 : polling_loop resps 96 2 = PollOutcome.complete 3 :=
      polling_loop_step_complete resps 96 2 (by norm_num) h2w h2c
    simp [appPushConfirm, s1, s2, s3]

/-- Response streams for the C5 witness: all-waiting, and waiting twice
then complete. -/
def w5WaitResps : Nat → String := fun _ => "status WAITING"

/-- Responses that wait twice and then signal completion on the 3rd poll. -/
def w5DoneResps : Nat → String :=
  fun k => if k < 2 then "status WAITING" else "status MAP_TO_EXIT"

/-- C5 witness: the amended statement at concrete response streams. -/
theorem C5_witness :
    appPushConfirm "tok" w5WaitResps = AppPushResult.timeoutErr ∧
    appPushConfirm "tok" w5DoneResps
      = AppPushResult.confirmed 3 (confirmData "tok") :=
  ⟨(C5_polling "tok" w5WaitResps).1 (fun j hj =>
      ⟨show reSearch waitingMarker "status WAITING" = true by decide,
       show reSearch completeMarker "status WAITING" = false by decide⟩),
   (C5_polling "tok" w5DoneResps).2 (by decide) (by decide) (by decide)
     (by decide)⟩

/-- Response stream falsifying C5 as stated: every response — the 3rd
included — contains the MAP_TO_EXIT (complete) marker, but also the
WAITING marker. -/
def cex5Resps : Nat → String := fun _ => "WAITING MAP_TO_EXIT"

/-- C5 counterexample: the 3rd poll response contains the complete marker,
yet the loop does not exit after 3 polls — the WAITING check of line 220
fires first, so the run exhausts the whole budget and times out. -/
theorem C5_counterexample :
    reSearch completeMarker (cex5Resps 2) = true ∧
    appPushConfirm "tok" cex5Resps = AppPushResult.timeoutErr := by
  refine ⟨by decide, ?_⟩
  have h' : ∀ j, j < 50 → reSearch waitingMarker (cex5Resps (0 + j)) = true :=
    fun j _ =>
      show reSearch waitingMarker "WAITING MAP_TO_EXIT" = true by decide
  have hrun := polling_loop_waiting_run 50 cex5Resps 0 h'
  have e : ((2 * 50 : Nat) : Int) = 100 := by norm_num
  rw [e] at hrun
  simp [appPushConfirm, hrun]

/-- C6 counterexample: on a non-interactive input stream whose content is
blank, `ask_for_tan` returns the empty string — a blank TAN is accepted,
contradicting the claim that the returned value is never empty. -/
theorem C6_counterexample :
    ask_for_tan false [] " \t " = some "" ∧ ("" : String).isEmpty = true := by
  decide

/-- C6 (amended): on an interactive terminal the prompt loops until a line
with non-blank content arrives, so any returned value strips to something
non-empty; on a non-interactive stream the returned value is exactly the
stripped stream content — never whitespace-only, but empty when the stream
is blank. -/
theorem C6_tan_blankness (ttyLines : List String) (stdinData : String) :
    (∀ t, ask_for_tan true ttyLines stdinData = some t →
      (pyStrip t).isEmpty = false) ∧
    ask_for_tan false ttyLines stdinData = some (pyStrip stdinData) := by
  constructor
  · intro t ht
    have hf : ttyLines.find? (fun l => !(pyStrip l).isEmpty) = some t := by
      simpa [ask_for_tan] using ht
    have := List.find?_some hf
    simpa using this
  · simp [ask_for_tan]

/-- C6 witness: the amended statement at concrete inputs — a TTY stream
whose first non-blank line is " 1234 ", and a non-empty stdin. -/
theorem C6_witness :
    (pyStrip " 1234 ").isEmpty = false ∧
    ask_for_tan false [] " tan " = some (pyStrip " tan ") :=
  ⟨(C6_tan_blankness ["", " 1234 "] "x").1 " 1234 " (by decide),
   (C6_tan_blankness [] " tan ").2⟩

/-- C7 (amended): with the session non-interactive and a post-login body
containing the manual-TAN marker but not the wrong-credentials marker
(which is checked first), `confirm_login` fails with InteractionRequired
and performs no observable action at all — in particular no TAN prompt and
no TAN form search. -/
theorem C7_noninteractive_manual_tan (env : ConfirmEnv)
    (hni : env.interactive = false)
    (hm : reSearch manualTanMarker env.html = true)
    (hw : reSearch wrongCredMarker env.html = false) :
    confirm_login env = (Except.error AuthError.interactionRequired, []) := by
  simp [confirm_login, classifyLogin, hm, hw, tanBranch, hni]

/-- Environment for the C7 witness: non-interactive, body containing only
the manual-TAN marker. -/
def w7Env : ConfirmEnv :=
  { html := manualTanMarker, interactive := false, tanFormPresent0 := true,
    tanFormPresent1 := true, tanValue := "123456", tanFormPresent2 := false,
    devicePresent := true, appFormPresent := true, appToken := "tok",
    pollResponses := fun _ => "" }

/-- C7 witness: the amended statement at the concrete environment. -/
theorem C7_witness :
    confirm_login w7Env = (Except.error AuthError.interactionRequired, []) :=
  C7_noninteractive_manual_tan w7Env rfl (by decide) (by decide)

/-- Environment falsifying C7 as stated: non-interactive, and a body that
contains the manual-TAN marker but also the wrong-credentials marker. -/
def cex7Env : ConfirmEnv :=
  { html := wrongCredMarker ++ " " ++ manualTanMarker, interactive := false,
    tanFormPresent0 := true, tanFormPresent1 := true, tanValue := "123456",
    tanFormPresent2 := false, devicePresent := true, appFormPresent := true,
    appToken := "tok", pollResponses := fun _ => "" }

/-- C7 counterexample: the body contains the manual-TAN marker and the
session is non-interactive, yet authentication fails with
InvalidCredentials (the wrong-credentials check of line 163 runs first),
not InteractionRequired. -/
theorem C7_counterexample :
    cex7Env.interactive = false ∧
    reSearch manualTanMarker cex7Env.html = true ∧
    confirm_login cex7Env = (Except.error AuthError.invalidCredentials, []) ∧
    AuthError.invalidCredentials ≠ AuthError.interactionRequired := by
  refine ⟨rfl, by decide, rfl, by decide⟩

/-- Closed form of `list_accounts`: the three output lists are the filters
of the label sequence by the `if` / `elif` / `else` conditions of dkb.py
lines 424-429, in document order. -/
theorem list_accounts_filter (labels : List String) :
    (list_accounts labels).1
      = labels.filter (fun l => pyEndsWith l "Kreditkarte") ∧
    (list_accounts labels).2.1
      = labels.filter
          (fun l => !pyEndsWith l "Kreditkarte" && pyEndsWith l "Girokonto") ∧
    (list_accounts labels).2.2
      = labels.filter
          (fun l => !pyEndsWith l "Kreditkarte" && !pyEndsWith l "Girokonto") := by
  induction labels with
  | nil => simp [list_accounts]
  | cons l rest ih =>
      obtain ⟨ih1, ih2, ih3⟩ := ih
      by_cases h1 : pyEndsWith l "Kreditkarte" = true
      · simp [list_accounts, List.filter_cons, h1, ih1, ih2, ih3]
      · have h1' : pyEndsWith l "Kreditkarte" = false := by
          simpa using h1
        by_cases h2 : pyEndsWith l "Girokonto" = true
        · simp [list_accounts, List.filter_cons, h1', h2, ih1, ih2, ih3]
        · have h2' : pyEndsWith l "Girokonto" = false := by
            simpa using h2
          simp [list_accounts, List.filter_cons, h1', h2', ih1, ih2, ih3]

/-- C8: `list_accounts` classifies every dropdown label by suffix — labels
ending in "Kreditkarte" to the card list, labels ending in "Girokonto" to
the current-account list, both in document order — and any other label is
skipped with a warning (third component), never raising; in particular for
the labels of the claim it returns the stated pair and warns about
"Unknown Foo". -/
theorem C8_account_classification :
    (∀ labels : List String,
      (list_accounts labels).1
        = labels.filter (fun l => pyEndsWith l "Kreditkarte") ∧
      (list_accounts labels).2.1
        = labels.filter
            (fun l => !pyEndsWith l "Kreditkarte" && pyEndsWith l "Girokonto") ∧
      (list_accounts labels).2.2
        = labels.filter
            (fun l => !pyEndsWith l "Kreditkarte" && !pyEndsWith l "Girokonto")) ∧
    list_accounts ["VISA Kreditkarte", "Giro Girokonto", "Unknown Foo"]
      = (["VISA Kreditkarte"], ["Giro Girokonto"], ["Unknown Foo"]) :=
  ⟨list_accounts_filter, by decide⟩

/-- The `first` flag after one of the export loops: still set only when it
was set before and the loop body never ran. -/
theorem loopAccounts_snd (xs : List String) :
    ∀ first : Bool, (loopAccounts first xs).2 = (first && xs.isEmpty) := by
  induction xs with
  | nil => intro first; simp [loopAccounts]
  | cons a rest ih => intro first; simp [loopAccounts, ih false]

/-- Trace of an export loop entered with the flag cleared: every account
is preceded by exactly one "go back". -/
theorem loopAccounts_false_fst (xs : List String) :
    (loopAccounts false xs).1 = specGoBackTail xs := by
  induction xs with
  | nil => simp [loopAccounts, specGoBackTail]
  | cons a rest ih => simp [loopAccounts, specGoBackTail, ih]

/-- Trace of an export loop entered with the flag set: the first account
has no preceding "go back", every later one exactly one. -/
theorem loopAccounts_true_fst (xs : List String) :
    (loopAccounts true xs).1 = specGoBackTrace xs := by
  cases xs with
  | nil => simp [loopAccounts, specGoBackTrace]
  | cons a rest =>
      simp [loopAccounts, specGoBackTrace, loopAccounts_false_fst]

/-- The specification tail trace distributes over append. -/
theorem specGoBackTail_append (xs ys : List String) :
    specGoBackTail (xs ++ ys) = specGoBackTail xs ++ specGoBackTail ys := by
  induction xs with
  | nil => simp [specGoBackTail]
  | cons a rest ih => simp [specGoBackTail, ih]

/-- The whole export run equals the specification trace over the
concatenated account lists: card accounts first, then current accounts,
with exactly one "go back" between consecutive exports — including across
the card/current boundary — and none before the first. -/
theorem export_run_eq_spec (c d : List String) :
    export_run c d = specGoBackTrace (c ++ d) := by
  cases c with
  | nil =>
      simp [export_run, loopAccounts, loopAccounts_true_fst]
  | cons a rest =>
      simp [export_run, loopAccounts, loopAccounts_snd,
            loopAccounts_false_fst, specGoBackTrace, specGoBackTail_append]

/-- "Go back" count of the tail trace: one per account. -/
theorem countGoBacks_tail (xs : List String) :
    countGoBacks (specGoBackTail xs) = xs.length := by
  induction xs with
  | nil => simp [specGoBackTail, countGoBacks]
  | cons a rest ih => simp [specGoBackTail, countGoBacks, ih]

/-- "Go back" count of the specification trace: one fewer than the number
of accounts. -/
theorem countGoBacks_spec (xs : List String) :
    countGoBacks (specGoBackTrace xs) = xs.length - 1 := by
  cases xs with
  | nil => simp [specGoBackTrace, countGoBacks]
  | cons a rest => simp [specGoBackTrace, countGoBacks, countGoBacks_tail]

/-- C9: a run exporting the card accounts then the current accounts issues
exactly one "go back" between each pair of consecutive exports and none
before the first — N-1 go-backs for N accounts in total, including across
the boundary from the last card account to the first current account; in
particular exporting 3 accounts (2 cards, 1 current) issues exactly 2. -/
theorem C9_go_back_invariant :
    (∀ c d : List String,
      export_run c d = specGoBackTrace (c ++ d) ∧
      countGoBacks (export_run c d) = (c.length + d.length) - 1) ∧
    export_run ["A", "B"] ["X"]
      = [RunEv.exportAccount "A", RunEv.goBack, RunEv.exportAccount "B",
         RunEv.goBack, RunEv.exportAccount "X"] := by
  refine ⟨fun c d => ⟨export_run_eq_spec c d, ?_⟩, by decide⟩
  rw [export_run_eq_spec, countGoBacks_spec]
  simp
